import Mathlib

/-!
Verification development for the agentQ Travel Planner repository.

The frontend source (React) is shallowly embedded: each JS function named
below is translated into a Lean definition of the same name; JS objects
become structures, JS `null`/missing fields become `Option`, currency
amounts become integer cents (the source literals such as `25.50` are all
exact multiples of a cent), calendar dates and clock times stay the
`"YYYY-MM-DD"` / `"HH:MM"` strings the source uses, and `Date` values held
by the date pickers become their numeric timestamps (`Option Int`), which
is how the source compares them (`startDate > endDate`).

String helpers (`trimSeq`, `lowerSeq`, `seqCmp`, `containsSeq`) operate on
`String.data` character lists and mirror `String.prototype.trim`,
`toLowerCase`, `localeCompare` (sign only, lexicographic by code point) and
`includes` for the ASCII data appearing in this application.
-/

/-- `{city, country}` pair (LocationAutocomplete.jsx, mock data). -/
structure Location where
  city : String
  country : String
deriving DecidableEq

/-- Traveler counts (TravelersCounter.jsx `value`). -/
structure Travelers where
  adults : Nat
  children : Nat
  infants : Nat
deriving DecidableEq

/-- Budget options of the TripInitForm `select`. -/
inductive BudgetLevel where
  | BUDGET
  | MODERATE
  | LUXURY
deriving DecidableEq

/-- Transport radio options of the TripInitForm. -/
inductive TransportType where
  | AIR
  | ROAD
deriving DecidableEq

/-- Activity/meal record of the itinerary JSON (ItineraryPage.jsx mock
data, ItineraryTimeline.jsx). `cost_estimate` is in cents. -/
structure Event where
  name : String
  description : String
  location : Option Location
  start_time : Option String
  end_time : Option String
  cost_estimate : Int
deriving DecidableEq

/-- Accommodation record of a day (ItineraryPage.jsx mock data). -/
structure Accommodation where
  name : String
  location : Location
  check_in_date : String
  check_out_date : String
  cost_estimate : Int
deriving DecidableEq

/-- One day of an itinerary (ItineraryPage.jsx mock data shape). -/
structure Day where
  day_number : Nat
  date : String
  activities : List Event
  meals : List Event
  accommodation : Option Accommodation
deriving DecidableEq

/-- Itinerary resource as consumed by ItineraryPage.jsx.
`total_cost_estimate` is in cents. -/
structure Itinerary where
  trip_id : String
  ai_generated : Bool
  total_cost_estimate : Int
  days : List Day
deriving DecidableEq

/-- Trip preferences as carried by the mock trip details. -/
structure TripPrefs where
  interests : List String
deriving DecidableEq

/-- Trip details resource as consumed by ItineraryPage.jsx. -/
structure TripDetails where
  id : String
  origin : Location
  destinations : List Location
  start_date : String
  end_date : String
  travelers : Travelers
  budget_level : BudgetLevel
  transport_type : TransportType
  preferences : TripPrefs
deriving DecidableEq

/-- `mockTripDetails` of ItineraryPage.jsx `fetchItinerary` (lines 44-56):
the trip the page falls back to when the API is unreachable. -/
def mockTripDetails (tripId : String) : TripDetails :=
  { id := tripId
    origin := { city := "New York", country := "USA" }
    destinations := [{ city := "Paris", country := "France" }]
    start_date := "2025-07-15"
    end_date := "2025-07-22"
    travelers := { adults := 2, children := 0, infants := 0 }
    budget_level := .MODERATE
    transport_type := .AIR
    preferences := { interests := ["art", "history", "food", "sightseeing"] } }

/-- `mockItinerary` of ItineraryPage.jsx `fetchItinerary` (lines 58-178):
the itinerary the page falls back to when the API is unreachable.
Costs are the source's dollar amounts in cents. -/
def mockItinerary (tripId : String) : Itinerary :=
  { trip_id := tripId
    ai_generated := true
    total_cost_estimate := 350000
    days :=
      [ { day_number := 1
          date := "2025-07-15"
          activities :=
            [ { name := "Eiffel Tower Visit"
                description := "Visit the iconic Eiffel Tower and enjoy panoramic views of Paris"
                location := some { city := "Paris", country := "France" }
                start_time := some "10:00"
                end_time := some "12:30"
                cost_estimate := 2550 }
            , { name := "Seine River Cruise"
                description := "Relaxing cruise along the Seine River to see Paris from a different perspective"
                location := some { city := "Paris", country := "France" }
                start_time := some "14:00"
                end_time := some "15:30"
                cost_estimate := 1500 }
            , { name := "Dinner at Le Jules Verne"
                description := "Fine dining experience with views of the city"
                location := some { city := "Paris", country := "France" }
                start_time := some "19:00"
                end_time := some "21:00"
                cost_estimate := 20000 } ]
          meals :=
            [ { name := "Breakfast at Hotel"
                description := "Continental breakfast"
                location := some { city := "Paris", country := "France" }
                start_time := some "08:00"
                end_time := none
                cost_estimate := 0 }
            , { name := "Lunch at Café de Flore"
                description := "Classic Parisian café experience"
                location := some { city := "Paris", country := "France" }
                start_time := some "13:00"
                end_time := none
                cost_estimate := 3000 } ]
          accommodation := some
            { name := "Hotel Paris Center"
              location := { city := "Paris", country := "France" }
              check_in_date := "2025-07-15"
              check_out_date := "2025-07-22"
              cost_estimate := 20000 } }
      , { day_number := 2
          date := "2025-07-16"
          activities :=
            [ { name := "Louvre Museum"
                description := "Explore one of the largest art museums of the world"
                location := some { city := "Paris", country := "France" }
                start_time := some "09:00"
                end_time := some "13:00"
                cost_estimate := 1700 }
            , { name := "Luxembourg Gardens"
                description := "Relax in these beautiful gardens"
                location := some { city := "Paris", country := "France" }
                start_time := some "14:30"
                end_time := some "16:00"
                cost_estimate := 0 }
            , { name := "Shopping at Champs-Élysées"
                description := "Shopping at one of the most famous avenues of the world"
                location := some { city := "Paris", country := "France" }
                start_time := some "16:30"
                end_time := some "18:30"
                cost_estimate := 10000 } ]
          meals :=
            [ { name := "Breakfast at Hotel"
                description := "Continental breakfast"
                location := some { city := "Paris", country := "France" }
                start_time := some "08:00"
                end_time := none
                cost_estimate := 0 }
            , { name := "Lunch at Angelina"
                description := "Famous for their hot chocolate and pastries"
                location := some { city := "Paris", country := "France" }
                start_time := some "13:30"
                end_time := none
                cost_estimate := 2500 }
            , { name := "Dinner at Le Comptoir"
                description := "Classic French bistro"
                location := some { city := "Paris", country := "France" }
                start_time := some "19:30"
                end_time := none
                cost_estimate := 4500 } ]
          accommodation := some
            { name := "Hotel Paris Center"
              location := { city := "Paris", country := "France" }
              check_in_date := "2025-07-15"
              check_out_date := "2025-07-22"
              cost_estimate := 20000 } } ] }

/-! ### Character-list string helpers -/

/-- Split a character list at `-` separators (used to read the source's
`"YYYY-MM-DD"` date strings). -/
def splitDash : List Char → List (List Char)
  | [] => [[]]
  | c :: rest =>
    match splitDash rest with
    | [] => [[c]]
    | g :: gs => if c = '-' then [] :: g :: gs else (c :: g) :: gs

/-- Read a non-empty digit sequence as a number. -/
def digitsToNat : List Char → Option Nat
  | [] => none
  | l => l.foldl (fun acc c => match acc with
      | none => none
      | some n => if c.isDigit then some (n * 10 + (c.toNat - 48)) else none)
      (some 0)

/-- Parse a `"YYYY-MM-DD"` string into `(year, month, day)`. -/
def parseDate (s : String) : Option (Nat × Nat × Nat) :=
  match splitDash s.data with
  | [y, m, d] =>
    match digitsToNat y, digitsToNat m, digitsToNat d with
    | some yn, some mn, some dn => some (yn, mn, dn)
    | _, _, _ => none
  | _ => none

/-- Serial day number of a proleptic Gregorian date (valid for year >= 1),
counted from 0000-03-01; used to give meaning to `start_date + i` in the
specification. -/
def rataDie (y m d : Nat) : Nat :=
  let yy := if m ≤ 2 then y - 1 else y
  let era := yy / 400
  let yoe := yy - era * 400
  let mp := (m + 9) % 12
  let doy := (153 * mp + 2) / 5 + d - 1
  let doe := yoe * 365 + yoe / 4 - yoe / 100 + doy
  era * 146097 + doe

/-- Serial day number of a `"YYYY-MM-DD"` string. -/
def dateNum (s : String) : Option Nat :=
  (parseDate s).map fun t => rataDie t.1 t.2.1 t.2.2

/-- Inclusive day span `(end_date - start_date).days + 1` of a trip. -/
def tripSpanDays (t : TripDetails) : Option Nat :=
  match dateNum t.start_date, dateNum t.end_date with
  | some a, some b => some (b - a + 1)
  | _, _ => none

/-- Whether a day's `date` equals `trip.start_date + (day_number - 1)`. -/
def dayDateOk (t : TripDetails) (d : Day) : Bool :=
  match dateNum t.start_date, dateNum d.date with
  | some a, some b => b = a + (d.day_number - 1)
  | _, _ => false

/-! ### Cost recomputation (specification law) -/

/-- Cost of all events of a list, in cents. -/
def sumEventCost (events : List Event) : Int :=
  events.foldl (fun acc e => acc + e.cost_estimate) 0

/-- Cost of a single day: activities + meals + accommodation. -/
def dayCost (d : Day) : Int :=
  sumEventCost d.activities + sumEventCost d.meals +
    (match d.accommodation with
     | some a => a.cost_estimate
     | none => 0)

/-- Sum of every activity, meal and accommodation cost estimate across a
list of days. -/
def sumDaysCost (days : List Day) : Int :=
  days.foldl (fun acc d => acc + dayCost d) 0

/-- The specification's recomputation law applied to an itinerary:
`total_cost_estimate` recomputed from the days. -/
def specTotalCost (it : Itinerary) : Int :=
  sumDaysCost it.days

/-- What the Trip Summary card of ItineraryPage.jsx presents as Total
Budget (line 284): the stored `total_cost_estimate`, read directly. -/
def displayedTotalCost (it : Itinerary) : Int :=
  it.total_cost_estimate

/-! ### TravelersCounter (TravelersCounter.jsx) -/

/-- The `type` argument of `handleIncrement` / `handleDecrement`. -/
inductive CounterType where
  | adults
  | children
  | infants
deriving DecidableEq

/-- `handleIncrement` of TravelersCounter.jsx (lines 6-25). -/
def handleIncrement : CounterType → Travelers → Travelers
  | .adults, v => { v with adults := min (v.adults + 1) 10 }
  | .children, v => { v with children := min (v.children + 1) 10 }
  | .infants, v => { v with infants := min (v.infants + 1) v.adults }

/-- `handleDecrement` of TravelersCounter.jsx (lines 27-46). -/
def handleDecrement : CounterType → Travelers → Travelers
  | .adults, v => { v with adults := max (v.adults - 1) (max 1 v.infants) }
  | .children, v => { v with children := max (v.children - 1) 0 }
  | .infants, v => { v with infants := max (v.infants - 1) 0 }

/-- The Travelers invariant of the specification: at least one adult, at
most ten adults and children, and no more infants than adults. -/
def TravelersInv (v : Travelers) : Prop :=
  1 ≤ v.adults ∧ v.adults ≤ 10 ∧ v.children ≤ 10 ∧ v.infants ≤ v.adults

/-! ### TripInitForm (TripInitForm.jsx / the copy embedded in
src/backend/build.sh) -/

/-- `String.prototype.trim` on character data. -/
def trimSeq (l : List Char) : List Char :=
  ((l.dropWhile Char.isWhitespace).reverse.dropWhile Char.isWhitespace).reverse

/-- The TripInitForm state hooks (lines 191-200 of the embedded copy):
`origin`/dates start as `null`, destination rows may hold `null` while the
user is typing. Dates are the numeric values of the picked `Date`s. -/
structure FormState where
  origin : Option Location
  destinations : List (Option Location)
  startDate : Option Int
  endDate : Option Int
  travelers : Travelers
  budgetLevel : BudgetLevel
  transportType : TransportType
  naturalLanguageInput : String
  useNaturalLanguage : Bool
deriving DecidableEq

/-- The `newErrors` object built by `validateForm`: a field is `some msg`
exactly when `validateForm` stores that message under the key. -/
structure FormErrors where
  naturalLanguageInput : Option String
  origin : Option String
  destinations : Option String
  startDate : Option String
  endDate : Option String
  dateRange : Option String
deriving DecidableEq

/-- A destination row fails `!dest || !dest.city || !dest.country`. -/
def invalidDestination : Option Location → Bool
  | none => true
  | some loc => loc.city = "" || loc.country = ""

/-- `validateForm` of TripInitForm.jsx (lines 34-63; identical copy at
lines 220-258 of src/backend/build.sh). -/
def validateForm (fs : FormState) : FormErrors :=
  if fs.useNaturalLanguage then
    { naturalLanguageInput :=
        if trimSeq fs.naturalLanguageInput.data = [] then
          some "Please describe your trip"
        else none
      origin := none, destinations := none
      startDate := none, endDate := none, dateRange := none }
  else
    { naturalLanguageInput := none
      origin :=
        match fs.origin with
        | none => some "Please select an origin city"
        | some loc =>
          if loc.city = "" || loc.country = "" then
            some "Please select an origin city"
          else none
      destinations :=
        if fs.destinations.any invalidDestination then
          some "Please select all destination cities"
        else none
      startDate :=
        match fs.startDate with
        | none => some "Please select a start date"
        | some _ => none
      endDate :=
        match fs.endDate with
        | none => some "Please select an end date"
        | some _ => none
      dateRange :=
        match fs.startDate, fs.endDate with
        | some s, some e =>
          if e < s then some "End date must be after start date" else none
        | _, _ => none }

/-- `Object.keys(newErrors).length === 0`: no error was stored. -/
def formOk (errs : FormErrors) : Bool :=
  errs.naturalLanguageInput.isNone && errs.origin.isNone &&
    errs.destinations.isNone && errs.startDate.isNone &&
    errs.endDate.isNone && errs.dateRange.isNone

/-- The `tripData` object `handleSubmit` passes to `onSubmit`. Dates are
the numeric values of the form dates (the source serializes them to
ISO day strings for the wire). -/
structure TripData where
  natural_language_input : Option String
  use_natural_language : Bool
  origin : Option Location
  destinations : List Location
  start_date : Option Int
  end_date : Option Int
  travelers : Travelers
  budget_level : BudgetLevel
  transport_type : TransportType
deriving DecidableEq

/-- `handleSubmit` of TripInitForm.jsx (lines 261-297 of the embedded
copy): returns `none` when `validateForm` fails (the early return),
otherwise the submitted `tripData`. -/
def handleSubmit (fs : FormState) : Option TripData :=
  if formOk (validateForm fs) = false then none
  else if fs.useNaturalLanguage then
    some
      { natural_language_input := some fs.naturalLanguageInput
        use_natural_language := true
        origin := none
        destinations := []
        start_date := none
        end_date := none
        travelers := { adults := 1, children := 0, infants := 0 }
        budget_level := .MODERATE
        transport_type := .AIR }
  else
    some
      { natural_language_input := none
        use_natural_language := false
        origin := fs.origin
        destinations := (fs.destinations.filterMap id).filter
          (fun loc => !(loc.city = "") && !(loc.country = ""))
        start_date := fs.startDate
        end_date := fs.endDate
        travelers := fs.travelers
        budget_level := fs.budgetLevel
        transport_type := fs.transportType }

/-! ### LocationAutocomplete (src/unnamed/part_000) -/

/-- `MOCK_LOCATIONS` of LocationAutocomplete (lines 5-21). -/
def MOCK_LOCATIONS : List Location :=
  [ { city := "Paris", country := "France" }
  , { city := "London", country := "United Kingdom" }
  , { city := "New York", country := "USA" }
  , { city := "Tokyo", country := "Japan" }
  , { city := "Rome", country := "Italy" }
  , { city := "Barcelona", country := "Spain" }
  , { city := "Berlin", country := "Germany" }
  , { city := "Sydney", country := "Australia" }
  , { city := "Amsterdam", country := "Netherlands" }
  , { city := "Dubai", country := "UAE" }
  , { city := "Singapore", country := "Singapore" }
  , { city := "Hong Kong", country := "China" }
  , { city := "Bangkok", country := "Thailand" }
  , { city := "Istanbul", country := "Turkey" }
  , { city := "Prague", country := "Czech Republic" } ]

/-- `toLowerCase` on character data (ASCII, as in the mock data). -/
def lowerSeq (l : List Char) : List Char :=
  l.map Char.toLower

/-- Whether the first list is an initial segment of the second. -/
def isPrefixSeq : List Char → List Char → Bool
  | [], _ => true
  | _ :: _, [] => false
  | a :: as, b :: bs => a = b && isPrefixSeq as bs

/-- `String.prototype.includes`: the needle occurs somewhere in the hay. -/
def containsSeq (needle : List Char) : List Char → Bool
  | [] => isPrefixSeq needle []
  | c :: rest => isPrefixSeq needle (c :: rest) || containsSeq needle rest

/-- The suggestion-list effect of LocationAutocomplete (lines 50-66):
empty query (after trim) clears the list, otherwise the mock locations are
filtered by case-insensitive city/country containment and capped at 5. -/
def locationSuggestions (query : String) : List Location :=
  if trimSeq query.data = [] then []
  else
    let ql := lowerSeq query.data
    (MOCK_LOCATIONS.filter fun loc =>
      containsSeq ql (lowerSeq loc.city.data) ||
        containsSeq ql (lowerSeq loc.country.data)).take 5

/-! ### ItineraryTimeline (ItineraryTimeline.jsx)

`allEvents` in the source is
`[...activities, ...meals].sort(comparator)` with a comparator that
returns 1 when the first event has no `start_time` (even when the second
has none either), -1 when only the second has none, and
`localeCompare` of the two time strings otherwise.

ECMA-262 mandates no particular sort algorithm: `Array.prototype.sort`
must return a permutation of the elements, one that is ordered by the
comparator (and stably so) only when the comparator is a consistent
comparison function for those elements; for an inconsistent comparator
the resulting order is implementation-defined, and real engines do
differ — an insertion-based sort keeps two timeless events in insertion
order while a merge-based sort reverses them. The sort call is therefore
embedded relationally: `jsSortOutcome` holds of exactly the outputs the
standard permits, deciding nothing the standard leaves open. The
comparator below is consistent on a day's events precisely when every
event carries a `start_time` — it reports a timeless event as greater
even than itself. -/

/-- Sign of `String.prototype.localeCompare` on character data:
lexicographic comparison by code point. -/
def seqCmp : List Char → List Char → Int
  | [], [] => 0
  | [], _ :: _ => -1
  | _ :: _, [] => 1
  | c :: cs, d :: ds =>
    if c.toNat < d.toNat then -1
    else if d.toNat < c.toNat then 1
    else seqCmp cs ds

/-- The comparator of ItineraryTimeline.jsx (lines 5-9). -/
def evCmp (a b : Event) : Int :=
  match a.start_time with
  | none => 1
  | some s =>
    match b.start_time with
    | none => -1
    | some t => seqCmp s.data t.data

/-- The array literal `[...day.activities, ...day.meals]` that
ItineraryTimeline.jsx builds (line 5) before sorting: the day's combined
events in insertion order. -/
def dayEvents (day : Day) : List Event :=
  day.activities ++ day.meals

/-- The "consistent comparison function" requirement of ECMA-262
(23.1.3.30), restricted to the elements actually sorted: reflexively
zero, sign-antisymmetric about zero, and transitive in each sign
class. -/
def ConsistentCmpOn {α : Type} (cmp : α → α → Int) (l : List α) : Prop :=
  (∀ a ∈ l, cmp a a = 0)
  ∧ (∀ a ∈ l, ∀ b ∈ l, (cmp a b = 0 ↔ cmp b a = 0))
  ∧ (∀ a ∈ l, ∀ b ∈ l, ∀ c ∈ l, cmp a b = 0 → cmp b c = 0 → cmp a c = 0)
  ∧ (∀ a ∈ l, ∀ b ∈ l, ∀ c ∈ l, cmp a b < 0 → cmp b c < 0 → cmp a c < 0)
  ∧ (∀ a ∈ l, ∀ b ∈ l, ∀ c ∈ l, 0 < cmp a b → 0 < cmp b c → 0 < cmp a c)

/-- The contract of `Array.prototype.sort` (ECMA-262 23.1.3.30) embedded
relationally: a conforming output is a permutation of the input, and
when the comparator is a consistent comparison function on the input the
output must in addition be ordered by it. (For a consistent comparator
the standard also mandates stability; no theorem below needs that
stronger clause, so it is omitted.) For an inconsistent comparator the
standard leaves the order implementation-defined, so every permutation
conforms. -/
def jsSortOutcome {α : Type} (cmp : α → α → Int)
    (input output : List α) : Prop :=
  output.Perm input ∧
    (ConsistentCmpOn cmp input → output.Pairwise (fun a b => cmp a b ≤ 0))

/-- A timeless event used by the ordering counterexample. -/
def timelessA : Event :=
  { name := "Walk around the block", description := "No fixed time"
    location := none, start_time := none, end_time := none
    cost_estimate := 0 }

/-- A second timeless event, inserted after `timelessA`. -/
def timelessB : Event :=
  { name := "Window shopping", description := "No fixed time either"
    location := none, start_time := none, end_time := none
    cost_estimate := 0 }

/-- A day holding the two timeless events in insertion order. -/
def c7Day : Day :=
  { day_number := 1, date := "2025-07-15"
    activities := [timelessA, timelessB], meals := []
    accommodation := none }

/-- A day whose events all carry a `start_time`, listed ascending. -/
def c7TimedDay : Day :=
  { day_number := 1, date := "2025-07-15"
    activities :=
      [ { name := "Morning walk", description := "Timed activity"
          location := none, start_time := some "09:00", end_time := none
          cost_estimate := 0 } ]
    meals :=
      [ { name := "Lunch", description := "Timed meal"
          location := none, start_time := some "13:00", end_time := none
          cost_estimate := 0 } ]
    accommodation := none }

/-! ### The Itinerary Refinement Engine (spec-modelled)

The repository's refinement engine lives in the FastAPI backend
(`/backend/app` of the repository layout in README.md), which is not under
src/ — src/ holds only its HTTP caller `refineItinerary`
(src/unnamed/part_001, lines 44-46) and the UI stub
`handleRefinementSubmit` (src/unnamed/part_003, lines 196-209), which
sends nothing and updates nothing. The definitions below are therefore
modelled from the spec, §4.2 and §7. -/

/-- Modelled from the spec: the error taxonomy of §7 for refinement
(`GenerationUnavailable`, `RefinementRejected`); the backend service that
raises them is missing from src/. -/
inductive RefineError where
  | generationUnavailable
  | refinementRejected
deriving DecidableEq

/-- Result of a fallible refinement step. -/
inductive RRes (α : Type) where
  | ok (a : α)
  | fail (e : RefineError)
deriving DecidableEq

/-- Modelled from the spec: the refinement request `{text, target_day?}`
of §4.2; the backend endpoint consuming it is missing from src/. -/
structure RefineRequest where
  text : String
  target_day : Option Nat
deriving DecidableEq

/-- Modelled from the spec: an Itinerary with the `version` counter of §3;
the backend record carrying `version` is missing from src/. -/
structure RefItinerary where
  trip_id : String
  ai_generated : Bool
  total_cost_estimate : Int
  days : List Day
  version : Nat
deriving DecidableEq

/-- Modelled from the spec: the untrusted Day-shaped replacement returned
by the external generation capability (§4.2 step 2, §9): every field may
be malformed, in particular the date may be missing. -/
structure RawDay where
  day_number : Nat
  date : Option String
  activities : List Event
  meals : List Event
  accommodation : Option Accommodation
deriving DecidableEq

/-- Modelled from the spec: the black-box text-generation capability of
§6, specialized to day replacement: request text and current day in, a
replacement raw day out, or `none` when unreachable. -/
def Cap : Type :=
  String → Day → Option RawDay

/-- An event violates the `start_time <= end_time` invariant of §3. -/
def eventTimeOk (e : Event) : Bool :=
  match e.start_time, e.end_time with
  | some s, some t => decide (seqCmp s.data t.data ≤ 0)
  | _, _ => true

/-- Modelled from the spec: the deterministic repair policy of §4.1(d) /
§4.2 step 5 applied to one replaced day — reindex `day_number`, clamp the
date back to the day slot's date, drop events with invalid time ordering.
A replacement with no date at all cannot be repaired (§4.2: producing a
Day with no `date` is rejected). -/
def repairDay (d : Nat) (orig : Day) (raw : RawDay) : Option Day :=
  match raw.date with
  | none => none
  | some _ =>
    some
      { day_number := d
        date := orig.date
        activities := raw.activities.filter eventTimeOk
        meals := raw.meals.filter eventTimeOk
        accommodation := raw.accommodation }

/-- Modelled from the spec: scope resolution of §4.2 step 1 — a supplied
`target_day` scopes to that single day, otherwise the whole itinerary is
in scope. -/
def inScope (req : RefineRequest) (day : Day) : Bool :=
  match req.target_day with
  | some d => decide (day.day_number = d)
  | none => true

/-- Modelled from the spec: one day of the scoped merge — days out of
scope are copied unchanged, in-scope days are replaced by the repaired
capability output, with the §7 errors on failure. -/
def refineDay (cap : Cap) (req : RefineRequest) (day : Day) : RRes Day :=
  if inScope req day then
    match cap req.text day with
    | none => .fail .generationUnavailable
    | some raw =>
      match repairDay day.day_number day raw with
      | none => .fail .refinementRejected
      | some newDay => .ok newDay
  else .ok day

/-- Modelled from the spec: the scoped merge over the ordered day list;
the first failing day aborts the whole refinement. -/
def refineDays (cap : Cap) (req : RefineRequest) : List Day → RRes (List Day)
  | [] => .ok []
  | day :: rest =>
    match refineDay cap req day with
    | .fail e => .fail e
    | .ok d2 =>
      match refineDays cap req rest with
      | .fail e => .fail e
      | .ok rest2 => .ok (d2 :: rest2)

/-- Modelled from the spec: `refine(current, request)` of §4.2 — scoped
merge, recomputed `total_cost_estimate`, version bumped by exactly one.
The backend service implementing this contract is missing from src/. -/
def refine (cap : Cap) (cur : RefItinerary) (req : RefineRequest) :
    RRes RefItinerary :=
  match refineDays cap req cur.days with
  | .fail e => .fail e
  | .ok newDays =>
    .ok
      { trip_id := cur.trip_id
        ai_generated := cur.ai_generated
        total_cost_estimate := sumDaysCost newDays
        days := newDays
        version := cur.version + 1 }

/-- Modelled from the spec: the atomic commit of §4.2/§7 — on success the
new version fully replaces the stored itinerary, on any failure the store
keeps the prior version and the error is surfaced. -/
def refineCommit (cap : Cap) (stored : RefItinerary) (req : RefineRequest) :
    RefItinerary × Option RefineError :=
  match refine cap stored req with
  | .ok next => (next, none)
  | .fail e => (stored, some e)

/-- A capability that answers every request by appending a museum visit
to the day's activities (used to witness the frame property). -/
def c3Cap : Cap := fun _ day =>
  some
    { day_number := day.day_number
      date := some day.date
      activities := day.activities ++
        [ { name := "Museum Visit", description := "Requested addition"
            location := none
            start_time := some "15:00", end_time := some "17:00"
            cost_estimate := 1200 } ]
      meals := day.meals
      accommodation := day.accommodation }

/-- Day 1 of the three-day witness itinerary. -/
def c3Day1 : Day :=
  { day_number := 1, date := "2025-07-15"
    activities :=
      [ { name := "City tour", description := "Guided walk"
          location := none
          start_time := some "09:00", end_time := some "11:00"
          cost_estimate := 2000 } ]
    meals := [], accommodation := none }

/-- Day 2 of the three-day witness itinerary (the refinement target). -/
def c3Day2 : Day :=
  { day_number := 2, date := "2025-07-16"
    activities :=
      [ { name := "River cruise", description := "Boat trip"
          location := none
          start_time := some "10:00", end_time := some "12:00"
          cost_estimate := 1500 } ]
    meals := [], accommodation := none }

/-- Day 3 of the three-day witness itinerary. -/
def c3Day3 : Day :=
  { day_number := 3, date := "2025-07-17"
    activities := [], meals := [], accommodation := none }

/-- The three-day itinerary refined in the C3 witness. -/
def c3Current : RefItinerary :=
  { trip_id := "trip-w3", ai_generated := true
    total_cost_estimate := 3500
    days := [c3Day1, c3Day2, c3Day3], version := 1 }

/-- The itinerary produced by refining day 2 of `c3Current` with
`c3Cap`: day 2 gains the museum visit, days 1 and 3 are untouched, the
total is recomputed and the version is bumped. -/
def c3Next : RefItinerary :=
  { trip_id := "trip-w3", ai_generated := true
    total_cost_estimate := 4700
    days :=
      [ c3Day1
      , { day_number := 2, date := "2025-07-16"
          activities :=
            [ { name := "River cruise", description := "Boat trip"
                location := none
                start_time := some "10:00", end_time := some "12:00"
                cost_estimate := 1500 }
            , { name := "Museum Visit", description := "Requested addition"
                location := none
                start_time := some "15:00", end_time := some "17:00"
                cost_estimate := 1200 } ]
          meals := [], accommodation := none }
      , c3Day3 ]
    version := 2 }

/-- A capability whose replacement day has no date: the §3 hard invariant
cannot be satisfied even after repair, so refinement must be rejected. -/
def c4Cap : Cap := fun _ _ =>
  some
    { day_number := 1, date := none
      activities := [], meals := [], accommodation := none }

/-- The stored one-day itinerary of the C4 witness. -/
def c4Stored : RefItinerary :=
  { trip_id := "trip-w1", ai_generated := true
    total_cost_estimate := 2000
    days :=
      [ { day_number := 1, date := "2025-07-15"
          activities := [], meals := [], accommodation := none } ]
    version := 1 }

/-- The structured form state of the C5 counterexample: every validated
field is well-formed but the travelers hold more infants than adults. -/
def c5Form : FormState :=
  { origin := some { city := "New York", country := "USA" }
    destinations := [some { city := "Paris", country := "France" }]
    startDate := some 100, endDate := some 200
    travelers := { adults := 1, children := 0, infants := 2 }
    budgetLevel := .MODERATE, transportType := .AIR
    naturalLanguageInput := "", useNaturalLanguage := false }

/-- A structured form state whose start and end date coincide (C8). -/
def c8Form : FormState :=
  { origin := some { city := "London", country := "United Kingdom" }
    destinations := [some { city := "Rome", country := "Italy" }]
    startDate := some 500, endDate := some 500
    travelers := { adults := 2, children := 0, infants := 0 }
    budgetLevel := .BUDGET, transportType := .ROAD
    naturalLanguageInput := "", useNaturalLanguage := false }

/-- A natural-language form state (C9). -/
def c9Form : FormState :=
  { origin := none
    destinations := [none]
    startDate := none, endDate := none
    travelers := { adults := 4, children := 2, infants := 1 }
    budgetLevel := .LUXURY, transportType := .ROAD
    naturalLanguageInput := "Five days in Paris exploring art museums"
    useNaturalLanguage := true }

/-- The trip `handleSubmit` produces from `c9Form`: the typed text plus
the conservative defaults. -/
def c9Trip : TripData :=
  { natural_language_input := some "Five days in Paris exploring art museums"
    use_natural_language := true
    origin := none
    destinations := []
    start_date := none, end_date := none
    travelers := { adults := 1, children := 0, infants := 0 }
    budget_level := .MODERATE, transport_type := .AIR }

/-! ## General lemmas -/

/-- Swapping the arguments of `seqCmp` negates its sign. -/
theorem seqCmp_neg : ∀ x y : List Char, seqCmp y x = -seqCmp x y := by
  intro x
  induction x with
  | nil =>
    intro y
    cases y <;> simp [seqCmp]
  | cons c cs ih =>
    intro y
    cases y with
    | nil => simp [seqCmp]
    | cons d ds =>
      simp only [seqCmp]
      rcases Nat.lt_trichotomy c.toNat d.toNat with h | h | h
      · simp [h, Nat.lt_asymm h]
      · simp [h, Nat.lt_irrefl]
        exact ih ds
      · simp [h, Nat.lt_asymm h]

/-- `seqCmp` is transitive on the not-greater side. -/
theorem seqCmp_trans_le :
    ∀ x y z : List Char, seqCmp x y ≤ 0 → seqCmp y z ≤ 0 → seqCmp x z ≤ 0 := by
  intro x
  induction x with
  | nil =>
    intro y z _ _
    cases z <;> simp [seqCmp]
  | cons c cs ih =>
    intro y z h1 h2
    cases y with
    | nil => simp [seqCmp] at h1
    | cons d ds =>
      cases z with
      | nil => simp [seqCmp] at h2
      | cons e es =>
        simp only [seqCmp] at h1 h2 ⊢
        by_cases hdc : d.toNat < c.toNat
        · rw [if_neg (by omega), if_pos hdc] at h1
          omega
        · by_cases hed : e.toNat < d.toNat
          · rw [if_neg (by omega), if_pos hed] at h2
            omega
          · by_cases hce : c.toNat < e.toNat
            · rw [if_pos hce]
              omega
            · rw [if_neg hce, if_neg (by omega)]
              rw [if_neg (by omega), if_neg (by omega)] at h1
              rw [if_neg (by omega), if_neg (by omega)] at h2
              exact ih ds es h1 h2

/-- `seqCmp` reports a string as equal to itself. -/
theorem seqCmp_refl : ∀ x : List Char, seqCmp x x = 0 := by
  intro x
  induction x with
  | nil => rfl
  | cons c cs ih => simp [seqCmp, ih]

/-- `seqCmp` is strictly transitive on the less side. -/
theorem seqCmp_lt_trans :
    ∀ x y z : List Char, seqCmp x y < 0 → seqCmp y z < 0 → seqCmp x z < 0 := by
  intro x y z h1 h2
  have hle : seqCmp x z ≤ 0 := seqCmp_trans_le x y z (by omega) (by omega)
  by_cases h0 : seqCmp x z = 0
  · have hzx : seqCmp z x = 0 := by rw [seqCmp_neg]; omega
    have hzy : seqCmp z y ≤ 0 := seqCmp_trans_le z x y (by omega) (by omega)
    have hyz := seqCmp_neg y z
    omega
  · omega

/-- `seqCmp` is transitive on the equal side. -/
theorem seqCmp_zero_trans :
    ∀ x y z : List Char, seqCmp x y = 0 → seqCmp y z = 0 → seqCmp x z = 0 := by
  intro x y z h1 h2
  have hle : seqCmp x z ≤ 0 := seqCmp_trans_le x y z (by omega) (by omega)
  have hzy : seqCmp z y = 0 := by rw [seqCmp_neg]; omega
  have hyx : seqCmp y x = 0 := by rw [seqCmp_neg]; omega
  have hzx : seqCmp z x ≤ 0 := seqCmp_trans_le z y x (by omega) (by omega)
  have hneg := seqCmp_neg x z
  omega

/-- The timeline comparator is a consistent comparison function on any
list of events that all carry a `start_time`. -/
theorem evCmp_consistent_all_timed (l : List Event)
    (h : ∀ e ∈ l, e.start_time.isSome = true) :
    ConsistentCmpOn evCmp l := by
  refine ⟨?_, ?_, ?_, ?_, ?_⟩
  · intro a ha
    obtain ⟨s, hs⟩ := Option.isSome_iff_exists.mp (h a ha)
    simp [evCmp, hs, seqCmp_refl]
  · intro a ha b hb
    obtain ⟨s, hs⟩ := Option.isSome_iff_exists.mp (h a ha)
    obtain ⟨t, ht⟩ := Option.isSome_iff_exists.mp (h b hb)
    simp only [evCmp, hs, ht]
    have hneg := seqCmp_neg s.data t.data
    omega
  · intro a ha b hb c hc h1 h2
    obtain ⟨s, hs⟩ := Option.isSome_iff_exists.mp (h a ha)
    obtain ⟨t, ht⟩ := Option.isSome_iff_exists.mp (h b hb)
    obtain ⟨u, hu⟩ := Option.isSome_iff_exists.mp (h c hc)
    simp only [evCmp, hs, ht, hu] at h1 h2 ⊢
    exact seqCmp_zero_trans _ _ _ h1 h2
  · intro a ha b hb c hc h1 h2
    obtain ⟨s, hs⟩ := Option.isSome_iff_exists.mp (h a ha)
    obtain ⟨t, ht⟩ := Option.isSome_iff_exists.mp (h b hb)
    obtain ⟨u, hu⟩ := Option.isSome_iff_exists.mp (h c hc)
    simp only [evCmp, hs, ht, hu] at h1 h2 ⊢
    exact seqCmp_lt_trans _ _ _ h1 h2
  · intro a ha b hb c hc h1 h2
    obtain ⟨s, hs⟩ := Option.isSome_iff_exists.mp (h a ha)
    obtain ⟨t, ht⟩ := Option.isSome_iff_exists.mp (h b hb)
    obtain ⟨u, hu⟩ := Option.isSome_iff_exists.mp (h c hc)
    simp only [evCmp, hs, ht, hu] at h1 h2 ⊢
    have n1 := seqCmp_neg s.data t.data
    have n2 := seqCmp_neg t.data u.data
    have n3 := seqCmp_neg s.data u.data
    have hlt := seqCmp_lt_trans u.data t.data s.data (by omega) (by omega)
    omega

/-- Any event without a `start_time` makes the timeline comparator
inconsistent on its list: the comparator reports that event as greater
than itself. -/
theorem evCmp_inconsistent_of_timeless (l : List Event) (e : Event)
    (he : e ∈ l) (ht : e.start_time = none) :
    ¬ ConsistentCmpOn evCmp l := by
  intro hcons
  have h0 := hcons.1 e he
  simp [evCmp, ht] at h0

/-- A successful scoped merge preserves the number of days. -/
theorem refineDays_len (cap : Cap) (req : RefineRequest) :
    ∀ (days days2 : List Day), refineDays cap req days = .ok days2 →
      days2.length = days.length := by
  intro days
  induction days with
  | nil =>
    intro days2 h
    simp only [refineDays] at h
    cases h
    rfl
  | cons day rest ih =>
    intro days2 h
    cases hd : refineDay cap req day with
    | fail e => simp [refineDays, hd] at h
    | ok d2 =>
      cases hr : refineDays cap req rest with
      | fail e => simp [refineDays, hd, hr] at h
      | ok rest2 =>
        simp only [refineDays, hd, hr] at h
        cases h
        simp [ih rest2 hr]

/-- A successful scoped merge maps each position through `refineDay`. -/
theorem refineDays_get (cap : Cap) (req : RefineRequest) :
    ∀ (days days2 : List Day), refineDays cap req days = .ok days2 →
      ∀ (i : Nat) (day : Day), days[i]? = some day →
        ∃ d2, days2[i]? = some d2 ∧ refineDay cap req day = .ok d2 := by
  intro days
  induction days with
  | nil =>
    intro days2 h i day hi
    simp at hi
  | cons d rest ih =>
    intro days2 h i day hi
    cases hd : refineDay cap req d with
    | fail e => simp [refineDays, hd] at h
    | ok d2 =>
      cases hr : refineDays cap req rest with
      | fail e => simp [refineDays, hd, hr] at h
      | ok rest2 =>
        simp only [refineDays, hd, hr] at h
        cases h
        cases i with
        | zero =>
          simp only [List.getElem?_cons_zero, Option.some.injEq] at hi
          exact ⟨d2, by simp, hi ▸ hd⟩
        | succ i =>
          simp only [List.getElem?_cons_succ] at hi ⊢
          exact ih rest2 hr i day hi

/-! ## Claim theorems -/

/-- C1 (counterexample): the fallback trip of ItineraryPage.jsx spans
2025-07-15 to 2025-07-22, an inclusive span of 8 days, yet the fallback
itinerary the page presents holds only 2 days — not the 8 the claim
requires. -/
theorem c1_counterexample :
    tripSpanDays (mockTripDetails "trip-1") = some 8
    ∧ (mockItinerary "trip-1").days.length = 2
    ∧ (mockItinerary "trip-1").days.length ≠ 8 := by
  refine ⟨by decide, by decide, by decide⟩

/-- C1 (amended): the fallback itinerary covers only the first 2 days of
the 8-day span; for the days that are present the claimed indexing law
does hold — `day_number` runs 1, 2 and each `date` equals
`start_date + (day_number - 1)`. -/
theorem c1_fallback_days :
    (mockItinerary "trip-1").days.map Day.day_number = [1, 2]
    ∧ ((mockItinerary "trip-1").days.all fun d =>
        dayDateOk (mockTripDetails "trip-1") d) = true
    ∧ tripSpanDays (mockTripDetails "trip-1") = some 8
    ∧ (mockItinerary "trip-1").days.length = 2 := by
  refine ⟨by decide, by decide, by decide, by decide⟩

/-- C2 (counterexample): the fallback itinerary's stored
`total_cost_estimate` is 3500 dollars (350000 cents) while the sum of
every activity, meal and accommodation cost across its days is 857.50
dollars (85750 cents); the value the page presents is the stored one, so
the presented itinerary violates the recomputation law. -/
theorem c2_counterexample :
    specTotalCost (mockItinerary "trip-2") = 85750
    ∧ displayedTotalCost (mockItinerary "trip-2") = 350000
    ∧ displayedTotalCost (mockItinerary "trip-2") ≠
        specTotalCost (mockItinerary "trip-2") := by
  refine ⟨by decide, by decide, by decide⟩

/-- C2 (amended): ItineraryPage.jsx presents `total_cost_estimate`
exactly as received — it never recomputes the sum from the days — and on
the fallback itinerary the stored value and the recomputed sum differ
(350000 cents presented against 85750 cents recomputed). -/
theorem c2_total_trusted :
    (∀ it : Itinerary, displayedTotalCost it = it.total_cost_estimate)
    ∧ displayedTotalCost (mockItinerary "trip-2b") = 350000
    ∧ specTotalCost (mockItinerary "trip-2b") = 85750 := by
  refine ⟨fun _ => rfl, by decide, by decide⟩

/-- C5 (counterexample): a structured submission whose travelers hold
more infants than adults (adults 1, children 0, infants 2) passes
`validateForm` — trip creation is not rejected at the validation
boundary. -/
theorem c5_counterexample :
    formOk (validateForm c5Form) = true
    ∧ c5Form.travelers.adults < c5Form.travelers.infants := by
  refine ⟨by decide, by decide⟩

/-- C5 (amended): `validateForm` does not inspect the travelers field at
all — its result is invariant under any change of travelers — so
`infants > adults` is never rejected at the trip-creation boundary; the
invariant is maintained only by the TravelersCounter widget itself. -/
theorem c5_validation_ignores_travelers (fs : FormState) (t : Travelers) :
    validateForm { fs with travelers := t } = validateForm fs := rfl

/-- C6: every single increment or decrement of the TravelersCounter
preserves the Travelers invariant (at least one adult, at most ten adults
and children, never more infants than adults); in particular decrementing
adults never drops the count below the current number of infants. -/
theorem c6_counter_invariant (v : Travelers) (t : CounterType)
    (h : TravelersInv v) :
    TravelersInv (handleIncrement t v) ∧ TravelersInv (handleDecrement t v)
    ∧ v.infants ≤ (handleDecrement .adults v).adults := by
  obtain ⟨h1, h2, h3, h4⟩ := h
  cases t <;>
    simp [handleIncrement, handleDecrement, TravelersInv] at * <;> omega

/-- C6 (witness): the invariant theorem applied to the concrete state
`{adults 2, children 3, infants 1}` under an infant increment. -/
theorem c6_counter_invariant_witness :
    TravelersInv (handleIncrement .infants
      { adults := 2, children := 3, infants := 1 }) ∧
    TravelersInv (handleDecrement .adults
      { adults := 2, children := 3, infants := 1 }) := by
  have h := c6_counter_invariant { adults := 2, children := 3, infants := 1 }
    .infants ⟨by decide, by decide, by decide, by decide⟩
  have h2 := c6_counter_invariant { adults := 2, children := 3, infants := 1 }
    .adults ⟨by decide, by decide, by decide, by decide⟩
  exact ⟨h.1, h2.2.1⟩

/-- C7 (counterexample): for the day holding the two timeless events
`timelessA`, `timelessB` in that insertion order, the sort contract
admits both the insertion order and its reversal as conforming outcomes:
the comparator is inconsistent on these events (it answers 1 for every
pair of timeless events, even an event against itself), so the standard
leaves their order implementation-defined — the code does not keep
events lacking a `start_time` in their original insertion order. -/
theorem c7_counterexample :
    dayEvents c7Day = [timelessA, timelessB]
    ∧ jsSortOutcome evCmp (dayEvents c7Day) [timelessB, timelessA]
    ∧ jsSortOutcome evCmp (dayEvents c7Day) [timelessA, timelessB]
    ∧ ([timelessB, timelessA] : List Event) ≠ [timelessA, timelessB] := by
  have hA : timelessA ∈ dayEvents c7Day := by decide
  have hincons :=
    evCmp_inconsistent_of_timeless (dayEvents c7Day) timelessA hA rfl
  have heq : dayEvents c7Day = [timelessA, timelessB] := by decide
  refine ⟨heq, ⟨?_, fun hcons => absurd hcons hincons⟩,
    ⟨List.Perm.refl _, fun hcons => absurd hcons hincons⟩, by decide⟩
  rw [heq]
  exact List.Perm.swap timelessA timelessB []

/-- C7 (amended): the timeline ordering is a conforming outcome of the
sort contract and hence always a permutation of the day's combined
activities and meals; when every event of the day carries a `start_time`
the comparator is a consistent comparison function and every conforming
outcome is ascending by `start_time`; as soon as any event lacks a
`start_time` the comparator is inconsistent on the day's events and the
standard leaves the resulting order — in particular the relative order
of the timeless events — implementation-defined, so insertion-order
stability among timeless events is not guaranteed. -/
theorem c7_timeline_guarantees :
    (∀ (day : Day) (out : List Event),
        jsSortOutcome evCmp (dayEvents day) out → out.Perm (dayEvents day))
    ∧ (∀ day : Day, (∀ e ∈ dayEvents day, e.start_time.isSome = true) →
        ConsistentCmpOn evCmp (dayEvents day))
    ∧ (∀ (day : Day) (e : Event), e ∈ dayEvents day → e.start_time = none →
        ¬ ConsistentCmpOn evCmp (dayEvents day))
    ∧ ∀ (day : Day) (out : List Event),
        (∀ e ∈ dayEvents day, e.start_time.isSome = true) →
        jsSortOutcome evCmp (dayEvents day) out →
        out.Pairwise (fun a b => evCmp a b ≤ 0) := by
  refine ⟨fun day out h => h.1,
    fun day h => evCmp_consistent_all_timed _ h,
    fun day e he ht => evCmp_inconsistent_of_timeless _ e he ht,
    fun day out h hout => hout.2 (evCmp_consistent_all_timed _ h)⟩

/-- C7 (witness): the guarantees theorem at concrete days — the
all-timed day `c7TimedDay` has a consistent comparator and its own event
list is a conforming, pairwise-ascending outcome, while the day `c7Day`
of two timeless events has an inconsistent comparator. -/
theorem c7_timeline_guarantees_witness :
    ConsistentCmpOn evCmp (dayEvents c7TimedDay)
    ∧ ¬ ConsistentCmpOn evCmp (dayEvents c7Day)
    ∧ List.Pairwise (fun a b => evCmp a b ≤ 0) (dayEvents c7TimedDay) := by
  refine ⟨c7_timeline_guarantees.2.1 c7TimedDay (by decide),
    c7_timeline_guarantees.2.2.1 c7Day timelessA (by decide) rfl,
    c7_timeline_guarantees.2.2.2 c7TimedDay (dayEvents c7TimedDay) (by decide)
      ⟨List.Perm.refl _, fun _ => by decide⟩⟩

/-- C10: the location autocomplete returns no suggestions for a
whitespace-only query, never more than 5 suggestions, and every
suggestion is one of the known mock locations whose city or country
contains the query case-insensitively. -/
theorem c10_autocomplete (q : String) :
    (trimSeq q.data = [] → locationSuggestions q = [])
    ∧ (locationSuggestions q).length ≤ 5
    ∧ ∀ loc, loc ∈ locationSuggestions q →
        loc ∈ MOCK_LOCATIONS ∧
          (containsSeq (lowerSeq q.data) (lowerSeq loc.city.data) = true ∨
            containsSeq (lowerSeq q.data) (lowerSeq loc.country.data) = true) := by
  by_cases hq : trimSeq q.data = []
  · refine ⟨fun _ => by simp [locationSuggestions, hq], ?_, ?_⟩
    · simp [locationSuggestions, hq]
    · intro loc hmem
      simp [locationSuggestions, hq] at hmem
  · refine ⟨fun h => absurd h hq, ?_, ?_⟩
    · simp only [locationSuggestions, hq, if_false]
      rw [List.length_take]
      omega
    · intro loc hmem
      simp only [locationSuggestions, hq, if_false] at hmem
      have hmem' := List.mem_of_mem_take hmem
      rw [List.mem_filter] at hmem'
      refine ⟨hmem'.1, ?_⟩
      have h2 := hmem'.2
      rwa [Bool.or_eq_true] at h2

/-- C10 (witness): the autocomplete theorem applied to the query "Par":
the suggestion list stays within the cap and the suggestion it yields,
Paris, is a known location containing the query. -/
theorem c10_autocomplete_witness :
    (locationSuggestions "Par").length ≤ 5
    ∧ ({ city := "Paris", country := "France" } : Location) ∈ MOCK_LOCATIONS := by
  have h := c10_autocomplete "Par"
  exact ⟨h.2.1, (h.2.2 { city := "Paris", country := "France" } (by decide)).1⟩

/-- C3 (spec-modelled): a refinement targeted at day `d` leaves every day
whose `day_number` differs from `d` unchanged at its position — same
`date`, same `day_number`, same events — preserves the day count, and the
result's version is exactly the input version plus one. -/
theorem c3_refine_frame (cap : Cap) (cur : RefItinerary) (text : String)
    (d : Nat) (next : RefItinerary)
    (hok : refine cap cur { text := text, target_day := some d } = .ok next) :
    next.version = cur.version + 1
    ∧ next.days.length = cur.days.length
    ∧ ∀ (i : Nat) (day : Day), cur.days[i]? = some day →
        day.day_number ≠ d → next.days[i]? = some day := by
  cases hds : refineDays cap { text := text, target_day := some d } cur.days with
  | fail e => simp [refine, hds] at hok
  | ok newDays =>
    simp only [refine, hds] at hok
    cases hok
    refine ⟨rfl, refineDays_len cap _ cur.days newDays hds, ?_⟩
    intro i day hi hne
    obtain ⟨d2, hd2, href⟩ := refineDays_get cap _ cur.days newDays hds i day hi
    have hscope : inScope { text := text, target_day := some d } day = false := by
      simp [inScope, hne]
    rw [refineDay, hscope] at href
    simp only [Bool.false_eq_true, if_false] at href
    cases href
    exact hd2

/-- C3 (witness): refining day 2 of the concrete three-day itinerary
`c3Current` with the museum-adding capability yields `c3Next`, whose
days 1 and 3 are the untouched `c3Day1` and `c3Day3` and whose version is
bumped from 1 to 2. -/
theorem c3_refine_frame_witness :
    c3Next.version = 2
    ∧ c3Next.days[0]? = some c3Day1
    ∧ c3Next.days[2]? = some c3Day3 := by
  have h := c3_refine_frame c3Cap c3Current "add a museum visit on day 2" 2
    c3Next (by decide)
  refine ⟨?_, ?_, ?_⟩
  · rw [h.1]
    decide
  · exact h.2.2 0 c3Day1 (by decide) (by decide)
  · exact h.2.2 2 c3Day3 (by decide) (by decide)

/-- C4 (spec-modelled): refinement is atomic — whenever the commit
surfaces any error the stored itinerary is returned exactly as it was (at
its prior version), and a `refine` failure commits as the unchanged store
paired with that error; there is no input on which a refinement both
fails and mutates the store. -/
theorem c4_refine_atomic (cap : Cap) (stored : RefItinerary)
    (req : RefineRequest) :
    ((refineCommit cap stored req).2.isSome →
      (refineCommit cap stored req).1 = stored)
    ∧ ∀ e : RefineError, refine cap stored req = .fail e →
        refineCommit cap stored req = (stored, some e) := by
  cases h : refine cap stored req with
  | ok next =>
    constructor
    · simp [refineCommit, h]
    · intro e he
      exact RRes.noConfusion he
  | fail e =>
    constructor
    · intro _
      simp [refineCommit, h]
    · intro e2 he
      cases he
      simp [refineCommit, h]

/-- C4 (witness): the capability `c4Cap` returns a replacement day with
no date, which repair cannot fix; the atomicity theorem applied to the
stored itinerary `c4Stored` shows the commit surfaces
`RefinementRejected` with the store unchanged at version 1. -/
theorem c4_refine_atomic_witness :
    refineCommit c4Cap c4Stored
        { text := "impossible request", target_day := some 1 } =
      (c4Stored, some .refinementRejected)
    ∧ c4Stored.version = 1 := by
  have h := (c4_refine_atomic c4Cap c4Stored
    { text := "impossible request", target_day := some 1 }).2
    .refinementRejected (by decide)
  exact ⟨h, rfl⟩

/-- C8: for a structured submission with both dates picked, the
date-range error is reported exactly when the start date is after the end
date; when the two dates coincide the date-range check passes, and if
every other validated field is well-formed the submission is accepted. -/
theorem c8_date_range (fs : FormState) (s e : Int)
    (hn : fs.useNaturalLanguage = false)
    (hs : fs.startDate = some s) (he : fs.endDate = some e) :
    ((validateForm fs).dateRange ≠ none ↔ e < s)
    ∧ (s = e → (validateForm fs).origin = none →
        (validateForm fs).destinations = none →
        formOk (validateForm fs) = true) := by
  constructor
  · simp only [validateForm, hn, Bool.false_eq_true, if_false, hs, he]
    by_cases hlt : e < s
    · simp [hlt]
    · simp [hlt]
  · intro hse ho hd
    have hnr : ¬ e < s := by omega
    simp only [validateForm, hn, Bool.false_eq_true, if_false, hs, he] at ho hd ⊢
    simp only [formOk, ho, hd, hnr, if_false]
    simp

/-- C8 (witness): the date-range theorem applied to the concrete form
state `c8Form`, whose start and end dates are both day 500: no date-range
error is reported and the submission is accepted. -/
theorem c8_date_range_witness :
    ((validateForm c8Form).dateRange ≠ none ↔ (500 : Int) < 500)
    ∧ formOk (validateForm c8Form) = true := by
  have h := c8_date_range c8Form 500 500 (by decide) (by decide) (by decide)
  exact ⟨h.1, h.2 rfl (by decide) (by decide)⟩

/-- C9: a trip submitted in natural-language mode carries the typed text
itself — which validation guarantees non-empty — together with the
conservative defaults: a single adult traveler, MODERATE budget, AIR
transport and no destinations. -/
theorem c9_natural_language_defaults (fs : FormState) (td : TripData)
    (hn : fs.useNaturalLanguage = true)
    (hsub : handleSubmit fs = some td) :
    td.natural_language_input = some fs.naturalLanguageInput
    ∧ fs.naturalLanguageInput ≠ ""
    ∧ td.use_natural_language = true
    ∧ td.travelers = { adults := 1, children := 0, infants := 0 }
    ∧ td.budget_level = .MODERATE
    ∧ td.transport_type = .AIR
    ∧ td.destinations = [] := by
  cases hf : formOk (validateForm fs) with
  | false => simp [handleSubmit, hf] at hsub
  | true =>
    have hne : fs.naturalLanguageInput ≠ "" := by
      intro hempty
      have hdata : trimSeq fs.naturalLanguageInput.data = [] := by
        rw [hempty]
        rfl
      simp [formOk, validateForm, hn, hdata] at hf
    simp only [handleSubmit, hf, Bool.true_eq_false, if_false, hn, if_true,
      Option.some.injEq] at hsub
    cases hsub
    exact ⟨rfl, hne, rfl, rfl, rfl, rfl, rfl⟩

/-- C9 (witness): the natural-language submission theorem applied to the
concrete form state `c9Form` (whose counters, budget and transport are
deliberately non-default): the submitted trip still carries the
conservative defaults and the typed text. -/
theorem c9_natural_language_defaults_witness :
    handleSubmit c9Form = some c9Trip
    ∧ c9Form.naturalLanguageInput ≠ ""
    ∧ c9Trip.travelers = { adults := 1, children := 0, infants := 0 }
    ∧ c9Trip.destinations = [] := by
  have h := c9_natural_language_defaults c9Form c9Trip (by decide) (by decide)
  exact ⟨by decide, h.2.1, h.2.2.2.1, h.2.2.2.2.2.2⟩
